import Mathlib

/-!
Shallow embedding of `create_pdf.py` (class `AIProspectResearcher`), an
extraction-and-summarization pipeline over parsed web-page markup, together
with theorems checking the natural-language specification against it.

Texts are modelled as Lean `String`s (lists of characters).  Python's
`str.lower` is modelled character-wise on ASCII, which is faithful for the
ASCII keywords (`"founded"`, `"goal"`, ...) the program matches on.
-/

namespace CreatePdf

/-- ASCII lower-casing of one character, modelling Python `str.lower` per
character for ASCII input. -/
def lowChar : Char → Char
  | 'A' => 'a'
  | 'B' => 'b'
  | 'C' => 'c'
  | 'D' => 'd'
  | 'E' => 'e'
  | 'F' => 'f'
  | 'G' => 'g'
  | 'H' => 'h'
  | 'I' => 'i'
  | 'J' => 'j'
  | 'K' => 'k'
  | 'L' => 'l'
  | 'M' => 'm'
  | 'N' => 'n'
  | 'O' => 'o'
  | 'P' => 'p'
  | 'Q' => 'q'
  | 'R' => 'r'
  | 'S' => 's'
  | 'T' => 't'
  | 'U' => 'u'
  | 'V' => 'v'
  | 'W' => 'w'
  | 'X' => 'x'
  | 'Y' => 'y'
  | 'Z' => 'z'
  | c => c

/-- Python `text.lower()` (ASCII model). -/
def lowStr (s : String) : String := String.mk (s.data.map lowChar)

/-- Python `needle in hay` substring containment on character lists. -/
def containsSub (needle : List Char) : List Char → Bool
  | [] => needle.isEmpty
  | c :: t => needle.isPrefixOf (c :: t) || containsSub needle t

/-- Python's whitespace characters recognised by `str.strip()`. -/
def isSpaceChar (c : Char) : Bool :=
  c = ' ' || c = '\t' || c = '\n' || c = '\x0d' || c = '\x0b' || c = '\x0c'

/-- Python `s.strip()`: drop leading and trailing whitespace. -/
def stripList (l : List Char) : List Char :=
  ((l.dropWhile isSpaceChar).reverse.dropWhile isSpaceChar).reverse

/-- Python `s.strip()` on strings. -/
def stripStr (s : String) : String := String.mk (stripList s.data)

/-- Four leading decimal digits of `l`, if `l` starts with four digits
(the anchored part of `re.search` for the pattern of four digits). -/
def digPrefix4 (l : List Char) : Option (List Char) :=
  match l with
  | a :: b :: c :: d :: _ =>
    if a.isDigit && b.isDigit && c.isDigit && d.isDigit then some [a, b, c, d] else none
  | _ => none

/-- `re.search` for four consecutive digits: the leftmost window of four
digit characters in `l`, if any. -/
def window4 : List Char → Option (List Char)
  | [] => none
  | c :: t =>
    match digPrefix4 (c :: t) with
    | some m => some m
    | none => window4 t

/-- The characters of `"founded"`. -/
def foundedChars : List Char := ['f', 'o', 'u', 'n', 'd', 'e', 'd']

/-- The characters of `"mailto"` (the regex used to filter anchors). -/
def mailtoChars : List Char := ['m', 'a', 'i', 'l', 't', 'o']

/-- The characters of `"mailto:"` (the substring removed by `replace`). -/
def mailtoColon : List Char := ['m', 'a', 'i', 'l', 't', 'o', ':']

/-- Python `href.replace("mailto:", "")`: remove every (non-overlapping,
left-to-right) occurrence of `"mailto:"`. -/
def removeMailto : List Char → List Char
  | 'm' :: 'a' :: 'i' :: 'l' :: 't' :: 'o' :: ':' :: rest => removeMailto rest
  | c :: t => c :: removeMailto t
  | [] => []

/-- The markup model (`soup`): the title element's string (outer `none` =
no title element, inner `none` = a title element whose `.string` is Python
`None`), the attribute lists of the meta elements, the text of the
paragraph elements in document order, and the href values of the anchor
elements that carry an href attribute, in document order. -/
structure Soup where
  titleTag : Option (Option String)
  metas : List (List (String × String))
  paragraphs : List String
  anchorHrefs : List String
deriving DecidableEq

/-- Python exceptions that can escape the extraction code. -/
inductive PyErr where
  | keyError : String → PyErr
deriving DecidableEq

/-- `soup.title.string if soup.title else ''` — the `title` entry of the
content dict (`none` models Python `None`). -/
def extractTitle (soup : Soup) : Option String :=
  match soup.titleTag with
  | none => some ""
  | some st => st

/-- `soup.find('meta', attrs={'name': 'description'})['content'] if ... else ''`.
The subscript raises `KeyError` when the found meta element has no
`content` attribute; that exception is not caught anywhere in the program. -/
def extract_description (soup : Soup) : Except PyErr String :=
  match soup.metas.find? (fun m => m.lookup "name" == some "description") with
  | none => .ok ""
  | some m =>
    match m.lookup "content" with
    | some v => .ok v
    | none => .error (.keyError "content")

/-- The loop body of `extract_year_founded`: scan paragraphs in order; in a
paragraph whose lower-cased text contains `"founded"`, return the first
four-digit window if there is one, otherwise keep scanning. -/
def yearLoop : List String → String
  | [] => "Not available"
  | p :: rest =>
    if containsSub foundedChars (lowStr p).data then
      match window4 (lowStr p).data with
      | some m => String.mk m
      | none => yearLoop rest
    else yearLoop rest

/-- `extract_year_founded(self, soup)`. -/
def extract_year_founded (soup : Soup) : String := yearLoop soup.paragraphs

/-- `extract_keyword_sentences(self, soup, keywords)`: collect the stripped
text of every paragraph whose lower-cased text contains some keyword;
`["Not available"]` if the collection is empty. -/
def extract_keyword_sentences (soup : Soup) (keywords : List String) : List String :=
  let sentences := (soup.paragraphs.filter
    (fun p => keywords.any (fun k => containsSub k.data (lowStr p).data))).map stripStr
  if sentences.isEmpty then ["Not available"] else sentences

/-- `extract_goals(self, soup)`. -/
def extract_goals (soup : Soup) : List String :=
  extract_keyword_sentences soup ["goal", "mission"]

/-- `extract_objectives(self, soup)`. -/
def extract_objectives (soup : Soup) : List String :=
  extract_keyword_sentences soup ["objective", "vision"]

/-- `extract_innovations(self, soup)`. -/
def extract_innovations (soup : Soup) : List String :=
  extract_keyword_sentences soup ["innovation", "new technology"]

/-- `extract_contact_info(self, soup)`: anchors are filtered by
`re.compile(r'mailto')`, i.e. by the href merely containing `"mailto"`;
each kept href has every occurrence of `"mailto:"` removed and is stripped;
the results are joined with `", "`, with `"Not available"` when none. -/
def extract_contact_info (soup : Soup) : String :=
  let contact_info := (soup.anchorHrefs.filter
    (fun h => containsSub mailtoChars h.data)).map
      (fun h => stripStr (String.mk (removeMailto h.data)))
  if contact_info.isEmpty then "Not available" else String.intercalate ", " contact_info

/-- The `content` dict built by `scrape_website` (the `title` value may be
Python `None`). -/
structure PageContent where
  title : Option String
  description : String
  text : String
deriving DecidableEq

/-- The `additional_info` dict built by `scrape_website`. -/
structure AdditionalInfo where
  year_founded : String
  goals : List String
  objectives : List String
  innovations : List String
  contact_info : String
deriving DecidableEq

/-- `scrape_website(self, url)`.  The page fetch is abstracted as an
`Except` value (`.error` = `requests` raised a `RequestException`, which is
caught and turned into the empty result `({}, {})`, modelled `none`).  A
`KeyError` from the description subscript is not caught by the
`except requests.exceptions.RequestException` clause and escapes. -/
def scrape_website (fetch : Except Unit Soup) :
    Except PyErr (Option (PageContent × AdditionalInfo)) :=
  match fetch with
  | .error _ => .ok none
  | .ok soup =>
    match extract_description soup with
    | .error e => .error e
    | .ok desc =>
      .ok (some
        ({ title := extractTitle soup
           description := desc
           text := String.intercalate " " soup.paragraphs },
         { year_founded := extract_year_founded soup
           goals := extract_goals soup
           objectives := extract_objectives soup
           innovations := extract_innovations soup
           contact_info := extract_contact_info soup }))

/-- The summarization backend: given the input text, it produces a
`summary_text` or raises (`.error`).  `self.summarizer` is `Option` of
this, `none` modelling the failed `pipeline(...)` setup. -/
abbrev Summarizer : Type := String → Except String String

/-- The f-string prompt built by `generate_summary` (verbatim, including
the indentation of the triple-quoted literal). -/
def buildPrompt (content : PageContent) (info : AdditionalInfo) : String :=
  "\n        Company Overview: " ++ content.description ++
  ". \n        Year Founded: " ++ info.year_founded ++
  ". \n        Goals: " ++ String.intercalate "; " info.goals ++
  ". \n        Objectives: " ++ String.intercalate "; " info.objectives ++
  ". \n        Innovations: " ++ String.intercalate "; " info.innovations ++
  ". \n        Contact Information: " ++ info.contact_info ++ ".\n        "

/-- `generate_summary(self, content, additional_info)`: with no summarizer
it prints `"Summarizer model is not available."` and returns
`"No summary available."`; otherwise it summarizes the prompt and falls
back to returning the raw prompt if the call raises. -/
def generate_summary (summarizer : Option Summarizer) (content : PageContent)
    (info : AdditionalInfo) : String :=
  match summarizer with
  | none => "No summary available."
  | some f =>
    match f (buildPrompt content info) with
    | .ok summary => summary
    | .error _ => buildPrompt content info

/-- A value of the `analysis_data` dict: Python strings and Python lists of
strings occur as values of the same dict. -/
inductive FieldVal where
  | str : String → FieldVal
  | seq : List String → FieldVal
deriving DecidableEq

/-- Whether a dict value is a plain string. -/
def FieldVal.isStr : FieldVal → Bool
  | .str _ => true
  | .seq _ => false

/-- A single apostrophe, as a string. -/
def quoteStr : String := String.singleton (Char.ofNat 39)

/-- Python `'; '.join(v)`: joining a list joins its elements; joining a
string joins its characters. -/
def joinFV (sep : String) : FieldVal → String
  | .seq l => String.intercalate sep l
  | .str s => String.intercalate sep (s.data.map (fun c => String.singleton c))

/-- A dict value interpolated into an f-string: a string stands for
itself; a list renders as its Python `repr` (modelled for quote-free
elements). -/
def fmtFV : FieldVal → String
  | .str s => s
  | .seq l => "[" ++ String.intercalate ", " (l.map (fun s => quoteStr ++ s ++ quoteStr)) ++ "]"

/-- The `analysis_data` dict assembled by `research_prospect`. -/
structure AnalysisData where
  company_name : FieldVal
  summary : FieldVal
  year_founded : FieldVal
  goals : FieldVal
  objectives : FieldVal
  innovations : FieldVal
  contact_info : FieldVal
deriving DecidableEq

/-- Python `content_data["title"] or "Unknown Company"`: `None` and the
empty string are falsy. -/
def pyOrStr (v : Option String) (d : String) : String :=
  match v with
  | none => d
  | some s => if s.isEmpty then d else s

/-- The `analysis_data` dict literal of `research_prospect`: the goals,
objectives and innovations values are passed through as lists; the other
values are strings. -/
def analysisOf (content : PageContent) (info : AdditionalInfo)
    (summ : Option Summarizer) : AnalysisData :=
  { company_name := .str (pyOrStr content.title "Unknown Company")
    summary := .str (generate_summary summ content info)
    year_founded := .str info.year_founded
    goals := .seq info.goals
    objectives := .seq info.objectives
    innovations := .seq info.innovations
    contact_info := .str info.contact_info }

/-- `generate_report(self, analysis, output_path)`: the text written into
the PDF cells, in order.  The `'; '.join(...)` flattening of the goals,
objectives and innovations values happens here, inside the renderer. -/
def generate_report (analysis : AnalysisData) : List String :=
  [ "Prospect Research: " ++ fmtFV analysis.company_name,
    "Summary:\n" ++ fmtFV analysis.summary,
    "Additional Information:",
    "Year Founded: " ++ fmtFV analysis.year_founded,
    "Goals:\n" ++ joinFV "; " analysis.goals,
    "Objectives:\n" ++ joinFV "; " analysis.objectives,
    "Innovations:\n" ++ joinFV "; " analysis.innovations,
    "Contact Information: " ++ fmtFV analysis.contact_info ]

/-- `research_prospect` up to (and including) building `analysis_data`:
`.ok none` models the early `return` after `scrape_website` came back with
empty dicts. -/
def research_analysis (fetch : Except Unit Soup) (summ : Option Summarizer) :
    Except PyErr (Option AnalysisData) :=
  match scrape_website fetch with
  | .error e => .error e
  | .ok none => .ok none
  | .ok (some (content, info)) => .ok (some (analysisOf content info summ))

/-- `research_prospect(self, url, output_path)`: the rendered report cells
when a report is produced, `.ok none` when the run stops after a failed
fetch, `.error` when an exception escapes. -/
def research_prospect (fetch : Except Unit Soup) (summ : Option Summarizer) :
    Except PyErr (Option (List String)) :=
  match research_analysis fetch summ with
  | .error e => .error e
  | .ok none => .ok none
  | .ok (some a) => .ok (some (generate_report a))

/-- Whether `extract_description` succeeds on this markup (no `KeyError`
from a description meta element lacking a `content` attribute). -/
def descOk (soup : Soup) : Bool :=
  match extract_description soup with
  | .ok _ => true
  | .error _ => false

/-- Modelled from the spec: the Chunk Planner of spec section 4.2 is absent
from `src/create_pdf.py` (no chunking code exists in the source); its
splitting rule is modelled from the spec's words: split into fixed-size
character windows in order, non-overlapping, last chunk possibly shorter. -/
def chunksList (c : Nat) : List Char → List (List Char)
  | [] => []
  | x :: t => (x :: t).take c :: chunksList c (t.drop (c - 1))
termination_by l => l.length
decreasing_by
  simp only [List.length_drop, List.length_cons]
  omega

/-- Modelled from the spec: the Chunk Planner applied to a body text, with
chunk size `c` (spec default 500). -/
def chunkBody (c : Nat) (s : String) : List String :=
  (chunksList c s.data).map String.mk

/-- Claim C1's reading of `extract_year_founded`: commit to the first
paragraph whose lower-cased text contains `"founded"`, and return
`"Not available"` when that paragraph has no four-digit window. -/
def claimYearFounded (soup : Soup) : String :=
  match soup.paragraphs.find? (fun p => containsSub foundedChars (lowStr p).data) with
  | none => "Not available"
  | some p =>
    match window4 (lowStr p).data with
    | some m => String.mk m
    | none => "Not available"

/-- The amended C1, in the spec's style: the scan skips a paragraph that
contains `"founded"` but no four consecutive digits, and returns the
leftmost four-digit window of the first paragraph that has both. -/
def amendedYearFounded (soup : Soup) : String :=
  match soup.paragraphs.find? (fun p =>
      containsSub foundedChars (lowStr p).data && (window4 (lowStr p).data).isSome) with
  | some p =>
    match window4 (lowStr p).data with
    | some m => String.mk m
    | none => "Not available"
  | none => "Not available"

/-- Claim C9's reading of `extract_contact_info`: keep only anchors whose
target starts with the `"mailto:"` scheme, and strip that scheme prefix. -/
def claimContactInfo (soup : Soup) : String :=
  let addrs := (soup.anchorHrefs.filter (fun h => mailtoColon.isPrefixOf h.data)).map
    (fun h => stripStr (String.mk (h.data.drop 7)))
  if addrs.isEmpty then "Not available" else String.intercalate ", " addrs

/-- The amended C9, in the spec's style: keep every anchor whose target
contains `"mailto"` anywhere, remove every occurrence of `"mailto:"` from
it, strip surrounding whitespace, join with `", "`. -/
def amendedContactInfo (soup : Soup) : String :=
  let addrs := soup.anchorHrefs.filterMap (fun h =>
    if containsSub mailtoChars h.data then some (stripStr (String.mk (removeMailto h.data)))
    else none)
  if addrs = [] then "Not available" else String.intercalate ", " addrs

/-- No paragraph of the markup matches any of the keywords (the matching
notion of `extract_keyword_sentences`). -/
def noKeywordMatch (keywords : List String) (soup : Soup) : Bool :=
  soup.paragraphs.all (fun p => !(keywords.any (fun k => containsSub k.data (lowStr p).data)))

/-! Concrete fixtures used by witnesses and counterexamples. -/

/-- A page with no title, no meta elements, no paragraphs, no anchors. -/
def soupEmpty : Soup := ⟨none, [], [], []⟩

/-- The spec's founding-year example paragraph. -/
def soup1998 : Soup :=
  ⟨none, [], ["Our company was founded in 1998 after years of research"], []⟩

/-- Two paragraphs containing `"founded"`; only the second has digits. -/
def soupSkip : Soup :=
  ⟨none, [], ["The firm was founded a long time ago.", "It was founded in 1998."], []⟩

/-- A meta element with `name="description"` but no `content` attribute. -/
def soupBadMeta : Soup := ⟨none, [[("name", "description")]], [], []⟩

/-- A page with a title and one goal paragraph. -/
def soupGoal : Soup := ⟨some (some "Acme"), [], ["our goal is X"], []⟩

/-- One anchor whose target contains `"mailto"` without being a
`mailto:` link. -/
def soupFooMailto : Soup := ⟨none, [], [], ["foomailto"]⟩

/-- The spec's two-mailto-anchors example. -/
def soupMails : Soup := ⟨none, [], [], ["mailto:a@x.com", "mailto:b@y.com"]⟩

/-- A concrete content dict. -/
def contentX : PageContent := ⟨some "T", "D", "B"⟩

/-- A concrete additional-info dict. -/
def infoX : AdditionalInfo := ⟨"1998", ["g"], ["o"], ["i"], "c"⟩

/-- A paragraph with no keyword of any extractor and no digits. -/
def soupNoMatch : Soup := ⟨none, [], ["nothing relevant here"], []⟩

/-! Helper lemmas about the extractors. -/

/-- With no matching paragraph, `extract_keyword_sentences` answers the
one-element sentinel list. -/
theorem extract_keyword_sentences_of_noMatch (soup : Soup) (keywords : List String)
    (h : noKeywordMatch keywords soup = true) :
    extract_keyword_sentences soup keywords = ["Not available"] := by
  unfold extract_keyword_sentences
  have hfil : soup.paragraphs.filter
      (fun p => keywords.any (fun k => containsSub k.data (lowStr p).data)) = [] := by
    rw [List.filter_eq_nil_iff]
    intro p hp
    unfold noKeywordMatch at h
    rw [List.all_eq_true] at h
    simpa using h p hp
  simp [hfil]

/-- With no paragraph containing `"founded"`, the year scan answers the
sentinel. -/
theorem yearLoop_of_noFounded (l : List String)
    (h : ∀ p ∈ l, containsSub foundedChars (lowStr p).data = false) :
    yearLoop l = "Not available" := by
  induction l with
  | nil => rfl
  | cons p rest ih =>
    have hp := h p (List.mem_cons_self p rest)
    simp only [yearLoop, hp, Bool.false_eq_true, if_false]
    exact ih fun q hq => h q (List.mem_cons_of_mem p hq)

/-- With no anchor target containing `"mailto"`, the contact extractor
answers the sentinel. -/
theorem extract_contact_info_of_noMailto (soup : Soup)
    (h : ∀ a ∈ soup.anchorHrefs, containsSub mailtoChars a.data = false) :
    extract_contact_info soup = "Not available" := by
  unfold extract_contact_info
  have hfil : soup.anchorHrefs.filter (fun a => containsSub mailtoChars a.data) = [] := by
    rw [List.filter_eq_nil_iff]
    intro a ha
    simp [h a ha]
  simp [hfil]

/-- A successful `digPrefix4` answer is a length-4 all-digit prefix. -/
theorem digPrefix4_spec (l m : List Char) (h : digPrefix4 l = some m) :
    ∃ rest, l = m ++ rest ∧ m.length = 4 ∧ m.all Char.isDigit = true := by
  unfold digPrefix4 at h
  split at h
  · split at h
    · rename_i a b c d t hd
      cases h
      refine ⟨t, rfl, rfl, ?_⟩
      simp_all
    · exact absurd h (by simp)
  · exact absurd h (by simp)

/-- A successful `window4` answer is a length-4 all-digit infix. -/
theorem window4_spec (l m : List Char) (h : window4 l = some m) :
    ∃ l1 l2, l = l1 ++ m ++ l2 ∧ m.length = 4 ∧ m.all Char.isDigit = true := by
  induction l with
  | nil => exact absurd h (by simp [window4])
  | cons c t ih =>
    unfold window4 at h
    cases hd : digPrefix4 (c :: t) with
    | some m0 =>
      rw [hd] at h
      cases h
      obtain ⟨rest, hl, hlen, hdig⟩ := digPrefix4_spec _ _ hd
      exact ⟨[], rest, by simpa using hl, hlen, hdig⟩
    | none =>
      rw [hd] at h
      obtain ⟨l1, l2, hl, hlen, hdig⟩ := ih h
      exact ⟨c :: l1, l2, by simp [hl], hlen, hdig⟩

/-- ASCII lower-casing either fixes a character or yields a lower-case
letter, which is not a digit. -/
theorem lowChar_cases (c : Char) : lowChar c = c ∨ (lowChar c).isDigit = false := by
  unfold lowChar
  split <;> first | (left; rfl) | (right; decide)

/-- A character list whose lower-casing is all digits already equals its
lower-casing (digits are fixed by lower-casing). -/
theorem map_lowChar_eq_of_digits (a : List Char) (m : List Char)
    (hmap : a.map lowChar = m) (hdig : m.all Char.isDigit = true) : a = m := by
  induction a generalizing m with
  | nil =>
    rw [List.map_nil] at hmap
    exact hmap
  | cons x t ih =>
    cases m with
    | nil => simp at hmap
    | cons y s =>
      simp only [List.map_cons, List.cons.injEq] at hmap
      obtain ⟨hx, ht⟩ := hmap
      simp only [List.all_cons, Bool.and_eq_true] at hdig
      obtain ⟨hy, hs⟩ := hdig
      have hx2 : x = y := by
        rcases lowChar_cases x with hfix | hnd
        · rw [← hx, hfix]
        · rw [hx] at hnd
          exact absurd hy (by simp [hnd])
      rw [hx2, ih s ht hs]

/-- An all-digit infix of the lower-cased text is an infix of the original
text itself. -/
theorem infix_of_lower (p : String) (m l1 l2 : List Char)
    (h : (lowStr p).data = l1 ++ m ++ l2) (hdig : m.all Char.isDigit = true) :
    ∃ a1 a2, p.data = a1 ++ m ++ a2 := by
  have hmap : p.data.map lowChar = (l1 ++ m) ++ l2 := by simpa using h
  obtain ⟨u, v, huv, hu, hv⟩ := List.map_eq_append_iff.mp hmap
  obtain ⟨u1, u2, hu12, hu1, hu2⟩ := List.map_eq_append_iff.mp hu
  have h2 : u2 = m := map_lowChar_eq_of_digits u2 m hu2 hdig
  refine ⟨u1, v, ?_⟩
  rw [huv, hu12, h2, List.append_assoc]

/-- Shape of the year scan's answer: the sentinel, or a four-digit infix
of some scanned paragraph's text. -/
theorem yearLoop_shape (l : List String) :
    yearLoop l = "Not available" ∨
    ∃ p ∈ l, ∃ a1 a2 : List Char,
      p.data = a1 ++ (yearLoop l).data ++ a2 ∧
      (yearLoop l).data.length = 4 ∧ (yearLoop l).data.all Char.isDigit = true := by
  induction l with
  | nil => left; rfl
  | cons p rest ih =>
    cases h1 : containsSub foundedChars (lowStr p).data with
    | false =>
      have hY : yearLoop (p :: rest) = yearLoop rest := by
        simp [yearLoop, h1]
      rw [hY]
      rcases ih with h | ⟨q, hq, a1, a2, hh⟩
      · left; exact h
      · right; exact ⟨q, List.mem_cons_of_mem p hq, a1, a2, hh⟩
    | true =>
      cases h2 : window4 (lowStr p).data with
      | none =>
        have hY : yearLoop (p :: rest) = yearLoop rest := by
          simp [yearLoop, h1, h2]
        rw [hY]
        rcases ih with h | ⟨q, hq, a1, a2, hh⟩
        · left; exact h
        · right; exact ⟨q, List.mem_cons_of_mem p hq, a1, a2, hh⟩
      | some m =>
        have hY : yearLoop (p :: rest) = String.mk m := by
          simp [yearLoop, h1, h2]
        rw [hY]
        right
        obtain ⟨l1, l2, hl, hlen, hdig⟩ := window4_spec (lowStr p).data m h2
        obtain ⟨a1, a2, ha⟩ := infix_of_lower p m l1 l2 hl hdig
        exact ⟨p, List.mem_cons_self p rest, a1, a2, ha, hlen, hdig⟩

/-- Chunks concatenate back to the whole text. -/
theorem chunksList_flatten (c : Nat) (hc : 0 < c) :
    ∀ l : List Char, (chunksList c l).flatten = l
  | [] => by simp [chunksList]
  | x :: t => by
    have hrec := chunksList_flatten c hc (t.drop (c - 1))
    simp only [chunksList, List.flatten_cons, hrec]
    have hdrop : t.drop (c - 1) = (x :: t).drop c := by
      cases c with
      | zero => exact absurd hc (by simp)
      | succ k => simp
    rw [hdrop, List.take_append_drop]
termination_by l => l.length
decreasing_by
  simp only [List.length_drop, List.length_cons]
  omega

/-- The chunk count `n` is characterized by `L ≤ n * c < L + c`. -/
theorem chunksList_count (c : Nat) (hc : 0 < c) :
    ∀ l : List Char,
      l.length ≤ (chunksList c l).length * c ∧
      (chunksList c l).length * c < l.length + c
  | [] => by
    simp only [chunksList, List.length_nil, Nat.zero_mul]
    omega
  | x :: t => by
    obtain ⟨h1, h2⟩ := chunksList_count c hc (t.drop (c - 1))
    simp only [List.length_drop] at h1 h2
    simp only [chunksList, List.length_cons]
    rw [Nat.succ_mul]
    have hsplit : (chunksList c (t.drop (c - 1))).length * c = 0 ∨
        c ≤ (chunksList c (t.drop (c - 1))).length * c := by
      cases hm : (chunksList c (t.drop (c - 1))).length with
      | zero => left; simp
      | succ k => right; exact Nat.le_mul_of_pos_left c (Nat.succ_pos k)
    generalize (chunksList c (t.drop (c - 1))).length * c = K at h1 h2 hsplit
    constructor <;> omega
termination_by l => l.length
decreasing_by
  simp only [List.length_drop, List.length_cons]
  omega

/-- The chunk count is the rounded-up quotient `⌈L / c⌉ = (L + c - 1) / c`. -/
theorem chunksList_length (c : Nat) (hc : 0 < c) (l : List Char) :
    (chunksList c l).length = (l.length + c - 1) / c := by
  obtain ⟨h1, h2⟩ := chunksList_count c hc l
  symm
  have key : ∀ K : Nat, l.length ≤ K → K < l.length + c →
      K ≤ l.length + c - 1 ∧ l.length + c - 1 < K + c := by
    intro K hK1 hK2
    omega
  obtain ⟨k1, k2⟩ := key _ h1 h2
  refine Nat.div_eq_of_lt_le k1 ?_
  rw [Nat.succ_mul]
  exact k2

/-- `String.join` over `String.mk` images is `String.mk` of the flattened
list. -/
theorem join_map_mk (l : List (List Char)) :
    String.join (l.map String.mk) = String.mk l.flatten := by
  suffices h : ∀ acc, (l.map String.mk).foldl (· ++ ·) (String.mk acc) =
      String.mk (acc ++ l.flatten) by
    have := h []
    rw [List.nil_append] at this
    exact this
  induction l with
  | nil => intro acc; simp
  | cons x t ih =>
    intro acc
    simp only [List.map_cons, List.foldl_cons, List.flatten_cons]
    rw [show String.mk acc ++ String.mk x = String.mk (acc ++ x) from rfl, ih]
    rw [List.append_assoc]

/-- Joining the body chunks restores the body text. -/
theorem string_join_chunks (c : Nat) (hc : 0 < c) (s : String) :
    String.join (chunkBody c s) = s := by
  unfold chunkBody
  rw [join_map_mk, chunksList_flatten c hc]

/-! Theorems for the claims. -/

/-- Claim C3 (spec-modelled: the Chunk Planner is absent from
`src/create_pdf.py`, so it is modelled from the spec's words): splitting a
body text of length `L` into windows of size `c > 0` yields exactly
`⌈L / c⌉ = (L + c - 1) / c` chunks — equivalently the count `n` satisfies
`L ≤ n * c < L + c` — and concatenating the chunks in order reconstructs
the text exactly. -/
theorem c3_chunk_planner (s : String) (c : Nat) (h : 0 < c) :
    (chunkBody c s).length = (s.length + c - 1) / c ∧
    s.length ≤ (chunkBody c s).length * c ∧
    (chunkBody c s).length * c < s.length + c ∧
    String.join (chunkBody c s) = s := by
  have hlen : (chunkBody c s).length = (chunksList c s.data).length := by
    simp [chunkBody]
  have hc1 := chunksList_length c h s.data
  obtain ⟨hc2, hc3⟩ := chunksList_count c h s.data
  refine ⟨?_, ?_, ?_, string_join_chunks c h s⟩
  · rw [hlen, hc1]; rfl
  · rw [hlen]; exact hc2
  · rw [hlen]; exact hc3

/-- Claim C3 witness: the planner at chunk size 3 on a 7-character body. -/
theorem c3_witness :
    (chunkBody 3 "abcdefg").length = ("abcdefg".length + 3 - 1) / 3 ∧
    "abcdefg".length ≤ (chunkBody 3 "abcdefg").length * 3 ∧
    (chunkBody 3 "abcdefg").length * 3 < "abcdefg".length + 3 ∧
    String.join (chunkBody 3 "abcdefg") = "abcdefg" :=
  c3_chunk_planner "abcdefg" 3 (by decide)

/-- Claim C10: the answer of `extract_year_founded` is either exactly
`"Not available"` or a string of exactly four decimal digits occurring
consecutively (an infix) in some paragraph's text; no other shape is
possible. -/
theorem c10_year_shape (soup : Soup) :
    extract_year_founded soup = "Not available" ∨
    ∃ p ∈ soup.paragraphs, ∃ a1 a2 : List Char,
      p.data = a1 ++ (extract_year_founded soup).data ++ a2 ∧
      (extract_year_founded soup).data.length = 4 ∧
      (extract_year_founded soup).data.all Char.isDigit = true :=
  yearLoop_shape soup.paragraphs

/-- Claim C4: for every keyword list and every markup with zero matching
paragraphs, `extract_keyword_sentences` returns exactly the one-element
sequence `["Not available"]`, never an empty sequence; likewise for its
instantiations `extract_goals`, `extract_objectives` and
`extract_innovations`. -/
theorem c4_sentinel_list (keywords : List String) (soup : Soup)
    (h : noKeywordMatch keywords soup = true) :
    extract_keyword_sentences soup keywords = ["Not available"] ∧
    (noKeywordMatch ["goal", "mission"] soup = true →
      extract_goals soup = ["Not available"]) ∧
    (noKeywordMatch ["objective", "vision"] soup = true →
      extract_objectives soup = ["Not available"]) ∧
    (noKeywordMatch ["innovation", "new technology"] soup = true →
      extract_innovations soup = ["Not available"]) :=
  ⟨extract_keyword_sentences_of_noMatch soup keywords h,
   fun h2 => extract_keyword_sentences_of_noMatch soup _ h2,
   fun h2 => extract_keyword_sentences_of_noMatch soup _ h2,
   fun h2 => extract_keyword_sentences_of_noMatch soup _ h2⟩

/-- Claim C4 witness: a concrete markup with one non-matching paragraph
and a concrete keyword list. -/
theorem c4_witness :
    extract_keyword_sentences soupNoMatch ["goal", "mission"] = ["Not available"] ∧
    (noKeywordMatch ["goal", "mission"] soupNoMatch = true →
      extract_goals soupNoMatch = ["Not available"]) ∧
    (noKeywordMatch ["objective", "vision"] soupNoMatch = true →
      extract_objectives soupNoMatch = ["Not available"]) ∧
    (noKeywordMatch ["innovation", "new technology"] soupNoMatch = true →
      extract_innovations soupNoMatch = ["Not available"]) :=
  c4_sentinel_list ["goal", "mission"] soupNoMatch (by decide)

/-- Claim C6: the code slips on one case the claim (and the spec's
extractor contract) rules out: a meta element with `name="description"`
but no `content` attribute makes `soup.find('meta', ...)['content']` raise
a `KeyError`, which the `except requests.exceptions.RequestException`
clause does not catch, so an extractor raises for a missing attribute and
a non-fetch failure aborts the run without a report. -/
theorem c6_keyerror_on_missing_content :
    scrape_website (Except.ok soupBadMeta) = .error (.keyError "content") ∧
    research_prospect (Except.ok soupBadMeta) none = .error (.keyError "content") :=
  ⟨rfl, rfl⟩

/-- Claim C2 counterexample: with an unavailable backend,
`generate_summary` returns `"No summary available."`, which is not the
sentinel `"Summarizer model is not available."` named by the claim (that
text is only printed). -/
theorem c2_counterexample :
    generate_summary none contentX infoX = "No summary available." ∧
    generate_summary none contentX infoX ≠ "Summarizer model is not available." :=
  ⟨rfl, by decide⟩

/-- Claim C2 (amended): if the summarization backend is unavailable at
setup time, every summarization call returns the fixed sentinel
`"No summary available."` (the message `"Summarizer model is not
available."` is only printed), and on any markup whose description
extraction does not raise, the pipeline still assembles a complete
analysis record with that sentinel embedded as its summary. -/
theorem c2_unavailable_sentinel (content : PageContent) (info : AdditionalInfo)
    (soup : Soup) (h : descOk soup = true) :
    generate_summary none content info = "No summary available." ∧
    ∃ a : AnalysisData, research_analysis (Except.ok soup) none = .ok (some a) ∧
      a.summary = .str "No summary available." := by
  refine ⟨rfl, ?_⟩
  unfold descOk at h
  cases hd : extract_description soup with
  | error e => rw [hd] at h; simp at h
  | ok desc =>
    simp only [research_analysis, scrape_website, hd]
    exact ⟨_, rfl, rfl⟩

/-- Claim C2 witness: the amended claim at a concrete content, info and
markup. -/
theorem c2_witness :
    generate_summary none contentX infoX = "No summary available." ∧
    ∃ a : AnalysisData, research_analysis (Except.ok soupEmpty) none = .ok (some a) ∧
      a.summary = .str "No summary available." :=
  c2_unavailable_sentinel contentX infoX soupEmpty (by decide)

/-- Claim C5 counterexample: the `analysis_data` record that
`research_prospect` hands to `generate_report` carries the goals as a
sequence, not as a flattened string — the renderer, not the assembler,
joins it. -/
theorem c5_counterexample :
    ∃ a : AnalysisData, research_analysis (Except.ok soupGoal) none = .ok (some a) ∧
      a.goals.isStr = false ∧ a.goals = .seq ["our goal is X"] := by
  refine ⟨_, rfl, rfl, by decide⟩

/-- Claim C5 (amended): the goals/objectives/innovations fields of the
record reaching the Document Renderer are sequences; the Renderer
(`generate_report`), not the Narrative Assembler, flattens them by joining
with `"; "`; the remaining textual fields (company name, summary, year
founded, contact info) are plain strings with sentinels substituted. -/
theorem c5_renderer_flattens (content : PageContent) (info : AdditionalInfo)
    (summ : Option Summarizer) :
    (analysisOf content info summ).goals = .seq info.goals ∧
    (analysisOf content info summ).objectives = .seq info.objectives ∧
    (analysisOf content info summ).innovations = .seq info.innovations ∧
    (analysisOf content info summ).company_name = .str (pyOrStr content.title "Unknown Company") ∧
    (analysisOf content info summ).summary = .str (generate_summary summ content info) ∧
    (analysisOf content info summ).year_founded = .str info.year_founded ∧
    (analysisOf content info summ).contact_info = .str info.contact_info ∧
    (generate_report (analysisOf content info summ)).get? 4 =
      some ("Goals:\n" ++ String.intercalate "; " info.goals) ∧
    (generate_report (analysisOf content info summ)).get? 5 =
      some ("Objectives:\n" ++ String.intercalate "; " info.objectives) ∧
    (generate_report (analysisOf content info summ)).get? 6 =
      some ("Innovations:\n" ++ String.intercalate "; " info.innovations) :=
  ⟨rfl, rfl, rfl, rfl, rfl, rfl, rfl, rfl, rfl, rfl⟩

/-- Claim C7: if the prompt-style summarization call fails with a backend
error, `generate_summary` returns the raw unsummarized prompt text
unmodified and never propagates the failure. -/
theorem c7_prompt_fallback (f : Summarizer) (content : PageContent)
    (info : AdditionalInfo) (e : String)
    (h : f (buildPrompt content info) = .error e) :
    generate_summary (some f) content info = buildPrompt content info := by
  simp only [generate_summary]
  rw [h]

/-- Claim C7 witness: a concrete always-failing backend at a concrete
content and info. -/
theorem c7_witness :
    generate_summary (some (fun _ => Except.error "backend failure")) contentX infoX =
      buildPrompt contentX infoX :=
  c7_prompt_fallback (fun _ => Except.error "backend failure") contentX infoX
    "backend failure" rfl

/-- The year scan, rephrased with `find?`: it returns the four-digit
window of the first paragraph that contains `"founded"` and has such a
window. -/
theorem yearLoop_eq_find? (l : List String) :
    yearLoop l =
      (match l.find? (fun p =>
          containsSub foundedChars (lowStr p).data && (window4 (lowStr p).data).isSome) with
      | some p =>
        match window4 (lowStr p).data with
        | some m => String.mk m
        | none => "Not available"
      | none => "Not available") := by
  induction l with
  | nil => rfl
  | cons p rest ih =>
    cases h1 : containsSub foundedChars (lowStr p).data with
    | false =>
      rw [List.find?_cons_of_neg]
      · simpa only [yearLoop, h1, Bool.false_eq_true, if_false] using ih
      · simp [h1]
    | true =>
      cases h2 : window4 (lowStr p).data with
      | none =>
        rw [List.find?_cons_of_neg]
        · simpa only [yearLoop, h1, h2, if_true] using ih
        · simp [h1, h2]
      | some m =>
        rw [List.find?_cons_of_pos]
        · simp only [yearLoop, h1, h2, if_true]
        · simp [h1, h2]

/-- Claim C1 counterexample: with a first `"founded"` paragraph holding no
four-digit run and a second one holding `1998`, the code answers `"1998"`,
while the claim's rule (commit to the first `"founded"` paragraph) answers
`"Not available"`. -/
theorem c1_counterexample :
    extract_year_founded soupSkip = "1998" ∧
    claimYearFounded soupSkip = "Not available" :=
  ⟨by decide, by decide⟩

/-- Claim C1 (amended): `extract_year_founded` scans paragraphs in
document order and returns the leftmost window of four consecutive digits
(possibly the prefix of a longer digit run) found in the first paragraph
whose lower-cased text both contains `"founded"` and contains four
consecutive digits; a `"founded"` paragraph without four consecutive
digits is skipped rather than ending the scan; with no such paragraph the
answer is `"Not available"`.  In particular the spec's `1998` example
holds. -/
theorem c1_year_scan :
    (∀ soup : Soup, extract_year_founded soup = amendedYearFounded soup) ∧
    extract_year_founded soup1998 = "1998" := by
  constructor
  · intro soup
    unfold extract_year_founded amendedYearFounded
    exact yearLoop_eq_find? soup.paragraphs
  · decide

/-- `filterMap` of a guarded `some` is `map` after `filter`. -/
theorem filterMap_guard (g : String → String) (p : String → Bool) (l : List String) :
    l.filterMap (fun x => if p x then some (g x) else none) = (l.filter p).map g := by
  induction l with
  | nil => rfl
  | cons x t ih =>
    by_cases hx : p x = true <;>
      simp [List.filterMap_cons, List.filter_cons, hx, ih]

/-- Claim C9 counterexample: an anchor whose target `"foomailto"` merely
contains `"mailto"` is collected verbatim by the code, while the claim's
rule (`mailto:` scheme links only) answers `"Not available"`. -/
theorem c9_counterexample :
    extract_contact_info soupFooMailto = "foomailto" ∧
    claimContactInfo soupFooMailto = "Not available" :=
  ⟨by decide, by decide⟩

/-- Claim C9 (amended): `extract_contact_info` collects every anchor whose
target contains the substring `"mailto"` anywhere (the scheme colon is not
required), removes every occurrence of `"mailto:"` from the target, strips
surrounding whitespace, and joins the results with `", "` in document
order; `"Not available"` when no anchor qualifies.  In particular the
spec's two-anchor example still yields `"a@x.com, b@y.com"`. -/
theorem c9_contact_scan :
    (∀ soup : Soup, extract_contact_info soup = amendedContactInfo soup) ∧
    extract_contact_info soupMails = "a@x.com, b@y.com" := by
  constructor
  · intro soup
    unfold extract_contact_info amendedContactInfo
    rw [filterMap_guard]
    by_cases hnil : (soup.anchorHrefs.filter (fun h => containsSub mailtoChars h.data)) = [] <;>
      simp [hnil]
  · decide

/-- Claim C8: when the page fetch fails, `scrape_website` catches the
exception and returns the empty result upstream, and `research_prospect`
stops without producing a report (the rendered output is `none`); this
holds whatever the summarizer state is. -/
theorem c8_fetch_abort (summ : Option Summarizer) :
    scrape_website (Except.error ()) = .ok none ∧
    research_analysis (Except.error ()) summ = .ok none ∧
    research_prospect (Except.error ()) summ = .ok none :=
  ⟨rfl, rfl, rfl⟩

end CreatePdf
